import Mathlib

/-!
Verification of the CLINT (Core-Local Interruptor) register access layer.

The device is a single memory-mapped block: a software-interrupt-pending
array (one 32-bit word per hart plus one reserved trailing word), a
time-compare array (one 64-bit word per hart), and a single 64-bit time
counter.  The source exposes two access paths: a safe layer whose
addresses come from the repr(C) struct layout, and a raw fixed-ABI
(naked-assembly) layer whose addresses are recomputed from the constants
MTIMER_OFFSET and MTIME_OFFSET by explicit shift-and-add arithmetic.

We embed the device memory as a byte-addressable store, derive the struct
offsets exactly as repr(C) lays the fields out, transcribe the assembly
address arithmetic of the naked layer instruction by instruction (RV64
additions wrap modulo 2^64), and compare the two layers.
-/

namespace Aclint

/-- Byte-addressable device memory: each address holds one byte. -/
def Mem : Type := Nat → Nat

/-- All-zero memory, a convenient concrete starting state. -/
def zeroMem : Mem := fun _ => 0

/-- Store one byte (the low 8 bits of v) at address a. -/
def writeByte (m : Mem) (a v : Nat) : Mem :=
  fun x => if x = a then v % 256 else m x

/-- Store the n low-order bytes of v at addresses a, a+1, ..., a+n-1,
little-endian, as a RISC-V sw or sd instruction does. -/
def writeBytes : Mem → Nat → Nat → Nat → Mem
  | m, _, _, 0 => m
  | m, a, v, n + 1 => writeBytes (writeByte m a v) (a + 1) (v / 256) n

/-- Load n bytes starting at address a, little-endian. -/
def readBytes : Mem → Nat → Nat → Nat
  | _, _, 0 => 0
  | m, a, n + 1 => m a + 256 * readBytes m (a + 1) n

/-- 32-bit volatile load, as the lw in the msip accessors. -/
def read32 (m : Mem) (a : Nat) : Nat := readBytes m a 4

/-- 32-bit volatile store, as the sw in the msip accessors. -/
def write32 (m : Mem) (a v : Nat) : Mem := writeBytes m a v 4

/-- 64-bit volatile load, as the ld in the mtime and mtimecmp accessors. -/
def read64 (m : Mem) (a : Nat) : Nat := readBytes m a 8

/-- 64-bit volatile store, as the sd in the mtime and mtimecmp accessors. -/
def write64 (m : Mem) (a v : Nat) : Mem := writeBytes m a v 8

/-! ## Struct layout, computed as repr(C) computes it -/

/-- Round n up to the next multiple of the alignment a, as repr(C)
field placement does. -/
def alignUp (n a : Nat) : Nat := (n + a - 1) / a * a

/-- size_of::<MSIP>() : repr(transparent) over u32. -/
def size_of_MSIP : Nat := 4

/-- size_of::<u32>(). -/
def size_of_u32 : Nat := 4

/-- size_of::<MTIMECMP>() : repr(transparent) over u64. -/
def size_of_MTIMECMP : Nat := 8

/-- size_of::<MTIME>() : repr(transparent) over u64. -/
def size_of_MTIME : Nat := 8

/-- Hart capacity of the device block: the msip and mtimecmp arrays have
4095 entries. -/
def NHART : Nat := 4095

/-- Offset of the field msip inside MSWI (first field of a repr(C)
struct). -/
def offset_msip : Nat := 0

/-- Offset of the field _reserved inside MSWI: right after the 4095-entry
msip array, already 4-aligned. -/
def offset_reserved : Nat := offset_msip + size_of_MSIP * NHART

/-- size_of::<MSWI>() : the reserved u32 ends the struct, 4-aligned. -/
def size_of_MSWI : Nat := offset_reserved + size_of_u32

/-- size_of::<[MTIMECMP; 4095]>(). -/
def size_of_mtimecmp_array : Nat := size_of_MTIMECMP * NHART

/-- Offset of the field mswi inside SifiveClint (first field). -/
def offset_mswi : Nat := 0

/-- Offset of the field mtimecmp inside SifiveClint: after mswi, rounded
up to the 8-byte alignment of MTIMECMP. -/
def offset_mtimecmp : Nat := alignUp (offset_mswi + size_of_MSWI) 8

/-- Offset of the field mtime inside SifiveClint: after the mtimecmp
array, rounded up to 8-byte alignment. -/
def offset_mtime : Nat := alignUp (offset_mtimecmp + size_of_mtimecmp_array) 8

/-- size_of::<SifiveClint>() : end of mtime rounded up to the struct
alignment of 8. -/
def size_of_SifiveClint : Nat := alignUp (offset_mtime + size_of_MTIME) 8

/-! ## The constants of the raw fixed-ABI layer, as the source writes them -/

/-- Source: const MTIMER_OFFSET: usize = size_of::<MSWI>() + size_of::<u32>(); -/
def MTIMER_OFFSET : Nat := size_of_MSWI + size_of_u32

/-- Source: const MTIME_OFFSET: usize = Self::MTIMER_OFFSET + size_of::<[MTIMECMP; 4095]>(); -/
def MTIME_OFFSET : Nat := MTIMER_OFFSET + size_of_mtimecmp_array

/-! ## Safe accessor layer

Addresses come from the struct layout; Rust array indexing bounds-checks
the hart index, so an out-of-range index panics instead of touching
memory.  We model the panic as none. -/

/-- Address of mswi.msip[h] in the struct layout, for a block mapped at
base. -/
def msip_addr (base h : Nat) : Nat :=
  base + offset_mswi + offset_msip + size_of_MSIP * h

/-- Address of mtimecmp[h] in the struct layout. -/
def mtimecmp_addr (base h : Nat) : Nat :=
  base + offset_mtimecmp + size_of_MTIMECMP * h

/-- Address of mtime in the struct layout. -/
def mtime_addr (base : Nat) : Nat := base + offset_mtime

/-- fn read_mtime(&self) -> u64 -/
def read_mtime (m : Mem) (base : Nat) : Nat := read64 m (mtime_addr base)

/-- fn write_mtime(&self, val: u64) -/
def write_mtime (m : Mem) (base v : Nat) : Mem := write64 m (mtime_addr base) v

/-- fn read_mtimecmp(&self, hart_idx: usize) -> u64; none is the
bounds-check panic. -/
def read_mtimecmp (m : Mem) (base h : Nat) : Option Nat :=
  if h < NHART then some (read64 m (mtimecmp_addr base h)) else none

/-- fn write_mtimecmp(&self, hart_idx: usize, val: u64) -/
def write_mtimecmp (m : Mem) (base h v : Nat) : Option Mem :=
  if h < NHART then some (write64 m (mtimecmp_addr base h) v) else none

/-- fn read_msip(&self, hart_idx: usize) -> bool : the word compared
against zero. -/
def read_msip (m : Mem) (base h : Nat) : Option Bool :=
  if h < NHART then some (decide (read32 m (msip_addr base h) ≠ 0)) else none

/-- fn set_msip(&self, hart_idx: usize) : volatile store of 1u32. -/
def set_msip (m : Mem) (base h : Nat) : Option Mem :=
  if h < NHART then some (write32 m (msip_addr base h) 1) else none

/-- fn clear_msip(&self, hart_idx: usize) : volatile store of 0u32. -/
def clear_msip (m : Mem) (base h : Nat) : Option Mem :=
  if h < NHART then some (write32 m (msip_addr base h) 0) else none

/-! ## Raw fixed-ABI layer

Each address computation transcribes the naked assembly body on RV64:
a0 holds base, a1 holds hart_idx; slli shifts modulo 2^64 and add wraps
modulo 2^64.  No bounds check exists in this layer. -/

/-- Two to the 64th: RV64 register arithmetic wraps at this modulus. -/
def word64 : Nat := 18446744073709551616

/-- read_mtime_naked address: li a1, MTIME_OFFSET; add a0, a0, a1. -/
def read_mtime_naked_addr (base : Nat) : Nat :=
  (base + MTIME_OFFSET) % word64

/-- write_mtime_naked address: same computation as the read. -/
def write_mtime_naked_addr (base : Nat) : Nat :=
  (base + MTIME_OFFSET) % word64

/-- read_mtimecmp_naked address: slli a1, a1, 3; add a0, a0, a1;
li a1, MTIMER_OFFSET; add a0, a0, a1. -/
def read_mtimecmp_naked_addr (base h : Nat) : Nat :=
  ((base + 8 * h % word64) % word64 + MTIMER_OFFSET) % word64

/-- write_mtimecmp_naked address: same computation as the read. -/
def write_mtimecmp_naked_addr (base h : Nat) : Nat :=
  ((base + 8 * h % word64) % word64 + MTIMER_OFFSET) % word64

/-- read_msip_naked address: slli a1, a1, 2; add a0, a0, a1. -/
def read_msip_naked_addr (base h : Nat) : Nat :=
  (base + 4 * h % word64) % word64

/-- set_msip_naked address: same shift-and-add. -/
def set_msip_naked_addr (base h : Nat) : Nat :=
  (base + 4 * h % word64) % word64

/-- clear_msip_naked address: same shift-and-add. -/
def clear_msip_naked_addr (base h : Nat) : Nat :=
  (base + 4 * h % word64) % word64

/-- Source fn read_mtime_naked(&self) -> u64 : ld a0, (a0). -/
def read_mtime_naked (m : Mem) (base : Nat) : Nat :=
  read64 m (read_mtime_naked_addr base)

/-- Source fn write_mtime_naked(&self, val: u64) : sd a1, (a0). -/
def write_mtime_naked (m : Mem) (base v : Nat) : Mem :=
  write64 m (write_mtime_naked_addr base) v

/-- Source fn read_mtimecmp_naked(&self, hart_idx: usize) -> u64 :
ld a0, (a0). -/
def read_mtimecmp_naked (m : Mem) (base h : Nat) : Nat :=
  read64 m (read_mtimecmp_naked_addr base h)

/-- Source fn write_mtimecmp_naked(&self, hart_idx: usize, val: u64) :
sd a2, (a0). -/
def write_mtimecmp_naked (m : Mem) (base h v : Nat) : Mem :=
  write64 m (write_mtimecmp_naked_addr base h) v

/-- Source fn read_msip_naked(&self, hart_idx: usize) -> bool :
lw a0, (a0); the raw 32-bit word is returned, reinterpreted as bool by
the ABI. -/
def read_msip_naked (m : Mem) (base h : Nat) : Nat :=
  read32 m (read_msip_naked_addr base h)

/-- Source fn set_msip_naked(&self, hart_idx: usize) :
addi a1, zero, 1; sw a1, (a0). -/
def set_msip_naked (m : Mem) (base h : Nat) : Mem :=
  write32 m (set_msip_naked_addr base h) 1

/-- Source fn clear_msip_naked(&self, hart_idx: usize) :
sw zero, (a0). -/
def clear_msip_naked (m : Mem) (base h : Nat) : Mem :=
  write32 m (clear_msip_naked_addr base h) 0

/-! ## Memory lemmas -/

/-- A multi-byte store leaves every byte outside its footprint unchanged. -/
theorem writeBytes_apply_outside :
    ∀ (n : Nat) (m : Mem) (a v x : Nat), x < a ∨ a + n ≤ x →
      writeBytes m a v n x = m x := by
  intro n
  induction n with
  | zero => intro m a v x _; rfl
  | succ k ih =>
    intro m a v x hx
    show writeBytes (writeByte m a v) (a + 1) (v / 256) k x = m x
    rw [ih (writeByte m a v) (a + 1) (v / 256) x (by omega)]
    have hxa : x ≠ a := by omega
    simp [writeByte, hxa]

/-- Reading back the bytes a store just wrote returns the stored value
reduced to the store width. -/
theorem readBytes_writeBytes_self :
    ∀ (n : Nat) (m : Mem) (a v : Nat),
      readBytes (writeBytes m a v n) a n = v % 256 ^ n := by
  intro n
  induction n with
  | zero => intro m a v; simp [readBytes, writeBytes, Nat.mod_one]
  | succ k ih =>
    intro m a v
    show writeBytes (writeByte m a v) (a + 1) (v / 256) k a +
        256 * readBytes (writeBytes (writeByte m a v) (a + 1) (v / 256) k) (a + 1) k
        = v % 256 ^ (k + 1)
    rw [writeBytes_apply_outside k (writeByte m a v) (a + 1) (v / 256) a (by omega)]
    rw [ih (writeByte m a v) (a + 1) (v / 256)]
    have hb : writeByte m a v a = v % 256 := by simp [writeByte]
    rw [hb, Nat.pow_succ, Nat.mul_comm (256 ^ k) 256, Nat.mod_mul]

/-- A load from a region disjoint from a store's footprint sees the old
memory. -/
theorem readBytes_writeBytes_disjoint :
    ∀ (n2 : Nat) (m : Mem) (a1 v n1 a2 : Nat), a1 + n1 ≤ a2 ∨ a2 + n2 ≤ a1 →
      readBytes (writeBytes m a1 v n1) a2 n2 = readBytes m a2 n2 := by
  intro n2
  induction n2 with
  | zero => intro m a1 v n1 a2 _; rfl
  | succ k ih =>
    intro m a1 v n1 a2 hd
    show writeBytes m a1 v n1 a2 + 256 * readBytes (writeBytes m a1 v n1) (a2 + 1) k
        = m a2 + 256 * readBytes m (a2 + 1) k
    rw [writeBytes_apply_outside n1 m a1 v a2 (by omega)]
    rw [ih m a1 v n1 (a2 + 1) (by omega)]

/-- Every byte of the all-zero memory reads as zero, at any width. -/
theorem readBytes_zeroMem : ∀ (n a : Nat), readBytes zeroMem a n = 0 := by
  intro n
  induction n with
  | zero => intro a; rfl
  | succ k ih =>
    intro a
    show zeroMem a + 256 * readBytes zeroMem (a + 1) k = 0
    rw [ih (a + 1)]
    simp [zeroMem]

/-- Reading a 32-bit word just stored returns the value modulo 2^32. -/
theorem read32_write32_self (m : Mem) (a v : Nat) :
    read32 (write32 m a v) a = v % 4294967296 := by
  show readBytes (writeBytes m a v 4) a 4 = v % 4294967296
  rw [readBytes_writeBytes_self 4 m a v]
  norm_num

/-- Reading a 64-bit word just stored returns the value modulo 2^64. -/
theorem read64_write64_self (m : Mem) (a v : Nat) :
    read64 (write64 m a v) a = v % word64 := by
  show readBytes (writeBytes m a v 8) a 8 = v % word64
  rw [readBytes_writeBytes_self 8 m a v]
  norm_num [word64]

/-- A 32-bit load away from a 32-bit store's word sees the old memory. -/
theorem read32_write32_disjoint (m : Mem) (a1 a2 v : Nat)
    (hd : a1 + 4 ≤ a2 ∨ a2 + 4 ≤ a1) :
    read32 (write32 m a1 v) a2 = read32 m a2 :=
  readBytes_writeBytes_disjoint 4 m a1 v 4 a2 hd

/-- A 64-bit load away from a 32-bit store's word sees the old memory. -/
theorem read64_write32_disjoint (m : Mem) (a1 a2 v : Nat)
    (hd : a1 + 4 ≤ a2 ∨ a2 + 8 ≤ a1) :
    read64 (write32 m a1 v) a2 = read64 m a2 :=
  readBytes_writeBytes_disjoint 8 m a1 v 4 a2 hd

/-! ## Numeric values of the layout constants -/

/-- The msip array ends, and the reserved slot begins, at offset 0x3ffc. -/
theorem offset_reserved_val : offset_reserved = 0x3ffc := by decide

/-- The MSWI block is 0x4000 bytes. -/
theorem size_of_MSWI_val : size_of_MSWI = 0x4000 := by decide

/-- The struct layout puts mtimecmp at offset 0x4000. -/
theorem offset_mtimecmp_val : offset_mtimecmp = 0x4000 := by decide

/-- The struct layout puts mtime at offset 0xbff8. -/
theorem offset_mtime_val : offset_mtime = 0xbff8 := by decide

/-- The whole block is 0xc000 bytes. -/
theorem size_of_SifiveClint_val : size_of_SifiveClint = 0xc000 := by decide

/-- The source's MTIMER_OFFSET constant evaluates to 0x4004. -/
theorem MTIMER_OFFSET_val : MTIMER_OFFSET = 0x4004 := by decide

/-- The source's MTIME_OFFSET constant evaluates to 0xbffc. -/
theorem MTIME_OFFSET_val : MTIME_OFFSET = 0xbffc := by decide

/-! ## Normalizing the wrapped naked-layer address arithmetic -/

/-- When base + 0x4000 fits in 64 bits, the msip naked shift-and-add
computes base + 4*h without wrapping, for any h up to the array bound. -/
theorem read_msip_naked_addr_eq (base h : Nat) (hh : h ≤ NHART)
    (hb : base + 0x4000 < word64) :
    read_msip_naked_addr base h = base + 4 * h := by
  unfold NHART at hh
  simp only [read_msip_naked_addr, word64] at *
  omega

/-- The set_msip naked address computation, unwrapped. -/
theorem set_msip_naked_addr_eq (base h : Nat) (hh : h ≤ NHART)
    (hb : base + 0x4000 < word64) :
    set_msip_naked_addr base h = base + 4 * h := by
  unfold NHART at hh
  simp only [set_msip_naked_addr, word64] at *
  omega

/-- The clear_msip naked address computation, unwrapped. -/
theorem clear_msip_naked_addr_eq (base h : Nat) (hh : h ≤ NHART)
    (hb : base + 0x4000 < word64) :
    clear_msip_naked_addr base h = base + 4 * h := by
  unfold NHART at hh
  simp only [clear_msip_naked_addr, word64] at *
  omega

/-- The read_mtimecmp_naked address computation, unwrapped: it adds the
source constant MTIMER_OFFSET = 0x4004 to base + 8*h. -/
theorem read_mtimecmp_naked_addr_eq (base h : Nat) (hh : h ≤ NHART)
    (hb : base + 0xc004 < word64) :
    read_mtimecmp_naked_addr base h = base + 0x4004 + 8 * h := by
  unfold NHART at hh
  simp only [read_mtimecmp_naked_addr, MTIMER_OFFSET_val, word64] at *
  omega

/-- The write_mtimecmp_naked address computation, unwrapped. -/
theorem write_mtimecmp_naked_addr_eq (base h : Nat) (hh : h ≤ NHART)
    (hb : base + 0xc004 < word64) :
    write_mtimecmp_naked_addr base h = base + 0x4004 + 8 * h := by
  unfold NHART at hh
  simp only [write_mtimecmp_naked_addr, MTIMER_OFFSET_val, word64] at *
  omega

/-- The safe-layer msip address is base + 4*h. -/
theorem msip_addr_eq (base h : Nat) : msip_addr base h = base + 4 * h := by
  simp only [msip_addr, offset_mswi, offset_msip, size_of_MSIP]
  omega

/-- The safe-layer mtimecmp address is base + 0x4000 + 8*h. -/
theorem mtimecmp_addr_eq (base h : Nat) :
    mtimecmp_addr base h = base + 0x4000 + 8 * h := by
  simp only [mtimecmp_addr, offset_mtimecmp_val, size_of_MTIMECMP]

/-! ## Claims -/

/-- C4: the composite layout has exactly the hardware sizes: the MSWI
block is 4*(4095+1) = 0x4000 bytes (4095 four-byte msip entries plus one
reserved trailing 32-bit slot), the mtimecmp array is 8*4095 = 0x7ff8
bytes with no trailing padding, and the whole SifiveClint block is
0x4000 + 0x7ff8 + 8 = 0xc000 bytes. -/
theorem layout_sizes_match_hardware :
    size_of_MSWI = 4 * (4095 + 1) ∧ size_of_MSWI = 0x4000 ∧
    size_of_mtimecmp_array = 8 * 4095 ∧ size_of_mtimecmp_array = 0x7ff8 ∧
    offset_mtimecmp = size_of_MSWI ∧
    size_of_SifiveClint = 0x4000 + 0x7ff8 + 8 ∧
    size_of_SifiveClint = 0xc000 := by decide

/-- C1: the raw fixed-ABI time-compare accessors do NOT compute
base + 0x4000 + 8*h.  At base 0 and hart 0 the naked address arithmetic
yields 0x4004 (MTIMER_OFFSET double-counts the reserved u32 that
size_of::<MSWI>() already includes), while the struct layout used by the
safe accessors places mtimecmp[0] at 0x4000. -/
theorem mtimecmp_naked_offset_diverges :
    read_mtimecmp_naked_addr 0 0 = 0x4004 ∧
    write_mtimecmp_naked_addr 0 0 = 0x4004 ∧
    mtimecmp_addr 0 0 = 0x4000 := by decide

/-- C2: the raw fixed-ABI time-counter accessors do NOT access offset
0xbff8.  At base 0 the naked address arithmetic yields MTIME_OFFSET =
0xbffc, while the struct layout used by the safe accessors places mtime
at 0xbff8, immediately after the time-compare array. -/
theorem mtime_naked_offset_diverges :
    read_mtime_naked_addr 0 = 0xbffc ∧
    write_mtime_naked_addr 0 = 0xbffc ∧
    mtime_addr 0 = 0xbff8 := by decide

/-- C3: the cross-layer round trip fails.  Starting from all-zero memory
at base 0, writing 1 to mtimecmp[0] through the safe layer and reading
it back through the naked layer returns 0, and writing 1 through the
naked layer and reading back through the safe layer returns 2^32, because
the two layers access addresses 4 bytes apart. -/
theorem mtimecmp_roundtrip_fails :
    (write_mtimecmp zeroMem 0 0 1).map (fun m => read_mtimecmp_naked m 0 0)
      = some 0 ∧
    read_mtimecmp (write_mtimecmp_naked zeroMem 0 0 1) 0 0
      = some 4294967296 := by decide

/-- The safe-layer mtime address is base + 0xbff8. -/
theorem mtime_addr_eq (base : Nat) : mtime_addr base = base + 0xbff8 := by
  simp only [mtime_addr, offset_mtime_val]

/-- Agreement of the three raw software-interrupt accessors with the safe
layer's msip address, at one base and hart index. -/
def msipAddrAgreement (base h : Nat) : Prop :=
  read_msip_naked_addr base h = msip_addr base h ∧
  set_msip_naked_addr base h = msip_addr base h ∧
  clear_msip_naked_addr base h = msip_addr base h ∧
  msip_addr base h = base + 4 * h

/-- C5: for every hart index h < 4095 (and any base for which the block
fits in the 64-bit address space), the address computed by the raw
accessors read_msip_naked, set_msip_naked and clear_msip_naked equals
base + 4*h, which is exactly the address of mswi.msip[h] that the safe
accessors access: the msip array begins at byte offset 0 of the block. -/
theorem msip_naked_matches_safe (base h : Nat) (hh : h < NHART)
    (hb : base + 0x4000 < word64) : msipAddrAgreement base h := by
  have hh' : h ≤ NHART := Nat.le_of_lt hh
  refine ⟨?_, ?_, ?_, msip_addr_eq base h⟩
  · rw [read_msip_naked_addr_eq base h hh' hb, msip_addr_eq]
  · rw [set_msip_naked_addr_eq base h hh' hb, msip_addr_eq]
  · rw [clear_msip_naked_addr_eq base h hh' hb, msip_addr_eq]

/-- C5 witness: the agreement evaluated at base 0x2000000 and hart 3. -/
theorem msip_naked_matches_safe_witness : msipAddrAgreement 0x2000000 3 :=
  msip_naked_matches_safe 0x2000000 3 (by decide) (by decide)

/-- C6 counterexample: at base 0 and hart index 4095 the offset
arithmetic lands exactly on addresses the specification defines, contrary
to the claim: the software-interrupt accessors compute 0x3ffc, which is
the reserved trailing 32-bit slot, and the safe time-compare arithmetic
computes 0xbff8, which is the time-counter field. -/
theorem hart4095_hits_reserved_and_mtime :
    read_msip_naked_addr 0 4095 = offset_reserved ∧
    msip_addr 0 4095 = offset_reserved ∧
    mtimecmp_addr 0 4095 = mtime_addr 0 := by decide

/-- Boundary behaviour of the offset arithmetic at one base: hart 4094
stays strictly inside the 0xc000-byte block; at hart 4095 the msip
address is the reserved slot, the safe time-compare arithmetic gives the
time-counter field, and the naked time-compare address overlaps the
counter field and runs 4 bytes past the block. -/
def hartBoundaryProp (base : Nat) : Prop :=
  (base ≤ msip_addr base 4094 ∧
    msip_addr base 4094 + 4 ≤ base + size_of_SifiveClint) ∧
  (base ≤ read_msip_naked_addr base 4094 ∧
    read_msip_naked_addr base 4094 + 4 ≤ base + size_of_SifiveClint) ∧
  (base ≤ mtimecmp_addr base 4094 ∧
    mtimecmp_addr base 4094 + 8 ≤ base + size_of_SifiveClint) ∧
  (base ≤ read_mtimecmp_naked_addr base 4094 ∧
    read_mtimecmp_naked_addr base 4094 + 8 ≤ base + size_of_SifiveClint) ∧
  (base ≤ mtime_addr base ∧
    mtime_addr base + 8 ≤ base + size_of_SifiveClint) ∧
  msip_addr base 4095 = base + offset_reserved ∧
  read_msip_naked_addr base 4095 = base + offset_reserved ∧
  mtimecmp_addr base 4095 = mtime_addr base ∧
  read_mtimecmp_naked_addr base 4095 = mtime_addr base + 4 ∧
  read_mtimecmp_naked_addr base 4095 + 8 = base + size_of_SifiveClint + 4

/-- C6 amended: for h = 4094 every accessor's access lies strictly inside
the 0xc000-byte block; but for h = 4095 the computed addresses do land on
specification-defined fields: the msip accessors hit the reserved
trailing slot at base + 0x3ffc, the safe time-compare arithmetic hits the
time-counter field at base + 0xbff8, and the naked time-compare address
base + 0xbffc overlaps the counter field and extends 4 bytes beyond the
block. -/
theorem hart_boundary_behaviour (base : Nat) (hb : base + 0xc004 < word64) :
    hartBoundaryProp base := by
  have hb4 : base + 0x4000 < word64 := by simp only [word64] at *; omega
  have e1 := read_msip_naked_addr_eq base 4094 (by decide) hb4
  have e2 := read_msip_naked_addr_eq base 4095 (by decide) hb4
  have e3 := read_mtimecmp_naked_addr_eq base 4094 (by decide) hb
  have e4 := read_mtimecmp_naked_addr_eq base 4095 (by decide) hb
  unfold hartBoundaryProp
  rw [e1, e2, e3, e4, msip_addr_eq base 4094, msip_addr_eq base 4095,
    mtimecmp_addr_eq base 4094, mtimecmp_addr_eq base 4095, mtime_addr_eq,
    offset_reserved_val, size_of_SifiveClint_val]
  omega

/-- C6 amended witness: the boundary behaviour evaluated at base
0x2000000. -/
theorem hart_boundary_behaviour_witness : hartBoundaryProp 0x2000000 :=
  hart_boundary_behaviour 0x2000000 (by decide)

/-- Reading back a stored 1 in a 32-bit msip word returns 1. -/
theorem read32_write32_one (m : Mem) (a : Nat) :
    read32 (write32 m a 1) a = 1 := by
  rw [read32_write32_self]

/-- Reading back a stored 0 in a 32-bit msip word returns 0. -/
theorem read32_write32_zero (m : Mem) (a : Nat) :
    read32 (write32 m a 0) a = 0 := by
  rw [read32_write32_self]

/-- Any 32-bit read of the all-zero memory returns 0. -/
theorem read32_zeroMem (a : Nat) : read32 zeroMem a = 0 :=
  readBytes_zeroMem 4 a

/-- Observable behaviour of repeated set_msip and clear_msip at one hart:
setting once or twice reads back true, clearing twice reads back false,
and set followed by clear reads back false. -/
def msipSetClearBehaviour (m : Mem) (base h : Nat) : Prop :=
  ((set_msip m base h).bind fun m1 =>
    (set_msip m1 base h).bind fun m2 => read_msip m2 base h) = some true ∧
  ((set_msip m base h).bind fun m1 => read_msip m1 base h) = some true ∧
  ((clear_msip m base h).bind fun m1 =>
    (clear_msip m1 base h).bind fun m2 => read_msip m2 base h) = some false ∧
  ((set_msip m base h).bind fun m1 =>
    (clear_msip m1 base h).bind fun m2 => read_msip m2 base h) = some false

/-- C7: for every hart index h < 4095 and every starting memory, calling
set_msip twice leaves read_msip true exactly as after one call, calling
clear_msip twice leaves it false, and read_msip after set_msip followed
by clear_msip returns false. -/
theorem msip_set_clear_idempotent (m : Mem) (base h : Nat) (hh : h < NHART) :
    msipSetClearBehaviour m base h := by
  unfold msipSetClearBehaviour
  simp only [set_msip, clear_msip, read_msip, if_pos hh, Option.some_bind]
  refine ⟨?_, ?_, ?_, ?_⟩
  · rw [read32_write32_one]; decide
  · rw [read32_write32_one]; decide
  · rw [read32_write32_zero]; decide
  · rw [read32_write32_zero]; decide

/-- C7 witness: the set and clear behaviour evaluated at base 0, hart 2,
from all-zero memory. -/
theorem msip_set_clear_idempotent_witness : msipSetClearBehaviour zeroMem 0 2 :=
  msip_set_clear_idempotent zeroMem 0 2 (by decide)

/-- Frame property of one set_msip store: the pending word of another
hart and the time-compare word of the written hart are unchanged. -/
def msipFrameProp (m : Mem) (base h1 h2 : Nat) : Prop :=
  ((set_msip m base h1).bind fun m1 => read_msip m1 base h2)
    = read_msip m base h2 ∧
  ((set_msip m base h1).bind fun m1 => read_mtimecmp m1 base h1)
    = read_mtimecmp m base h1

/-- C8: for all distinct hart indices h1 and h2 below 4095, set_msip at
h1 changes neither the value read_msip observes at h2 nor the value
read_mtimecmp observes at h1: the store touches only hart h1's own
4-byte msip word. -/
theorem set_msip_frame (m : Mem) (base h1 h2 : Nat) (hne : h1 ≠ h2)
    (hh1 : h1 < NHART) (hh2 : h2 < NHART) : msipFrameProp m base h1 h2 := by
  have hh1n : h1 < 4095 := hh1
  have d1 : msip_addr base h1 + 4 ≤ msip_addr base h2 ∨
      msip_addr base h2 + 4 ≤ msip_addr base h1 := by
    simp only [msip_addr_eq]; omega
  have d2 : msip_addr base h1 + 4 ≤ mtimecmp_addr base h1 ∨
      mtimecmp_addr base h1 + 8 ≤ msip_addr base h1 := by
    simp only [msip_addr_eq, mtimecmp_addr_eq]; omega
  unfold msipFrameProp
  simp only [set_msip, read_msip, read_mtimecmp, if_pos hh1, if_pos hh2,
    Option.some_bind]
  constructor
  · rw [read32_write32_disjoint m (msip_addr base h1) (msip_addr base h2) 1 d1]
  · rw [read64_write32_disjoint m (msip_addr base h1) (mtimecmp_addr base h1) 1 d2]

/-- C8 witness: the frame property evaluated at base 0, harts 0 and 1,
from all-zero memory. -/
theorem set_msip_frame_witness : msipFrameProp zeroMem 0 0 1 :=
  set_msip_frame zeroMem 0 0 1 (by decide) (by decide) (by decide)

/-- Bounds behaviour of the safe layer at one hart index: below the array
bound every accessor performs its access (some), at or above it every
accessor hits the Rust bounds-check panic (none) instead of touching
memory. -/
def safeBoundsProp (m : Mem) (base h v : Nat) : Prop :=
  (h < NHART →
    (read_msip m base h).isSome = true ∧ (set_msip m base h).isSome = true ∧
    (clear_msip m base h).isSome = true ∧
    (read_mtimecmp m base h).isSome = true ∧
    (write_mtimecmp m base h v).isSome = true) ∧
  (NHART ≤ h →
    read_msip m base h = none ∧ set_msip m base h = none ∧
    clear_msip m base h = none ∧ read_mtimecmp m base h = none ∧
    write_mtimecmp m base h v = none)

/-- C9: in the safe layer the array indexing is in bounds for every
hart_idx < 4095, so the panic branch is unreachable there, and for
hart_idx >= 4095 the accessors panic on the bounds check rather than
access memory outside the block. -/
theorem safe_accessor_bounds (m : Mem) (base h v : Nat) :
    safeBoundsProp m base h v := by
  unfold safeBoundsProp
  constructor
  · intro hlt
    simp only [read_msip, set_msip, clear_msip, read_mtimecmp, write_mtimecmp,
      if_pos hlt, Option.isSome_some]
    exact ⟨trivial, trivial, trivial, trivial, trivial⟩
  · intro hge
    have hnlt : ¬h < NHART := Nat.not_lt.mpr hge
    simp only [read_msip, set_msip, clear_msip, read_mtimecmp, write_mtimecmp,
      if_neg hnlt]
    exact ⟨trivial, trivial, trivial, trivial, trivial⟩

/-- C9 witness: the bounds behaviour evaluated on all-zero memory at an
in-range hart (3) and at the first out-of-range hart (4095). -/
theorem safe_accessor_bounds_witness :
    safeBoundsProp zeroMem 0 3 7 ∧ safeBoundsProp zeroMem 0 4095 7 :=
  ⟨safe_accessor_bounds zeroMem 0 3 7, safe_accessor_bounds zeroMem 0 4095 7⟩

/-- The msip invariant this component's own stores maintain: every msip
word of the block holds 0 or 1. -/
def msipInv (m : Mem) (base : Nat) : Prop :=
  ∀ h, h < NHART →
    read32 m (msip_addr base h) = 0 ∨ read32 m (msip_addr base h) = 1

/-- The all-zero memory satisfies the msip invariant. -/
theorem msipInv_zeroMem (base : Nat) : msipInv zeroMem base :=
  fun h _ => Or.inl (read32_zeroMem (msip_addr base h))

/-- Agreement of the two msip read paths under the 0-or-1 invariant, and
preservation of the invariant by the component's own msip stores. -/
def msipLayersAgreeProp (m : Mem) (base h : Nat) : Prop :=
  read_msip m base h = some (decide (read_msip_naked m base h = 1)) ∧
  set_msip m base h = some (set_msip_naked m base h) ∧
  clear_msip m base h = some (clear_msip_naked m base h) ∧
  msipInv (set_msip_naked m base h) base ∧
  msipInv (clear_msip_naked m base h) base

/-- C10: every msip store of this component writes exactly 0 (clear) or
exactly 1 (set), so states produced by its own writes keep every msip
word in {0, 1}; under that invariant read_msip (word tested against 0)
and read_msip_naked (raw word reinterpreted as bool, i.e. compared with
1) return the same boolean, and the safe and naked stores produce the
identical state. -/
theorem msip_layers_agree (m : Mem) (base h : Nat) (hh : h < NHART)
    (hb : base + 0x4000 < word64) (hinv : msipInv m base) :
    msipLayersAgreeProp m base h := by
  have hh' : h ≤ NHART := Nat.le_of_lt hh
  have er : read_msip_naked_addr base h = msip_addr base h := by
    rw [read_msip_naked_addr_eq base h hh' hb, msip_addr_eq]
  have es : set_msip_naked_addr base h = msip_addr base h := by
    rw [set_msip_naked_addr_eq base h hh' hb, msip_addr_eq]
  have ec : clear_msip_naked_addr base h = msip_addr base h := by
    rw [clear_msip_naked_addr_eq base h hh' hb, msip_addr_eq]
  unfold msipLayersAgreeProp
  refine ⟨?_, ?_, ?_, ?_, ?_⟩
  · unfold read_msip read_msip_naked
    rw [if_pos hh, er]
    rcases hinv h hh with h0 | h1
    · rw [h0]; decide
    · rw [h1]; decide
  · unfold set_msip set_msip_naked
    rw [if_pos hh, es]
  · unfold clear_msip clear_msip_naked
    rw [if_pos hh, ec]
  · unfold set_msip_naked
    rw [es]
    intro h2 hh2
    by_cases heq : h2 = h
    · subst heq
      exact Or.inr (read32_write32_one m (msip_addr base h2))
    · have d : msip_addr base h + 4 ≤ msip_addr base h2 ∨
          msip_addr base h2 + 4 ≤ msip_addr base h := by
        simp only [msip_addr_eq]; omega
      rw [read32_write32_disjoint m (msip_addr base h) (msip_addr base h2) 1 d]
      exact hinv h2 hh2
  · unfold clear_msip_naked
    rw [ec]
    intro h2 hh2
    by_cases heq : h2 = h
    · subst heq
      exact Or.inl (read32_write32_zero m (msip_addr base h2))
    · have d : msip_addr base h + 4 ≤ msip_addr base h2 ∨
          msip_addr base h2 + 4 ≤ msip_addr base h := by
        simp only [msip_addr_eq]; omega
      rw [read32_write32_disjoint m (msip_addr base h) (msip_addr base h2) 0 d]
      exact hinv h2 hh2

/-- C10 witness: the agreement and preservation evaluated at base 0,
hart 1, from all-zero memory (which satisfies the invariant). -/
theorem msip_layers_agree_witness : msipLayersAgreeProp zeroMem 0 1 :=
  msip_layers_agree zeroMem 0 1 (by decide) (by decide) (msipInv_zeroMem 0)

end Aclint
